import Mathlib

/-!
Verification of the browser-autofill-service core logic.

Shallow embedding, translated from the JavaScript sources:
* `src/utils/humanBehavior.js`  — mouse-path generation (`generateMousePath`)
* `src/utils/profiles.js`       — profile store (`getProfilePath`, `deleteProfile`,
  `listProfiles`)
* `src/browser/browsermanager.js` — proxy-username construction in
  `BrowserManager.launchBrowser`, and the `FormLogic` heuristics
  (`inferFieldPurpose`, `getValueForField`, `detectCaptcha`, `verifySubmission`)
* `src/browser/cartpanda` checkout handler — `verifyCheckoutSuccess`
* `src/api/server.js`           — the worker job body `processJob`

JavaScript strings are modelled as Lean `String`, objects with string keys as
association lists (`List (String × String)`, preserving iteration order), the
file system under the profiles root as the list of its subdirectory names, and
browser/context registries as lists of session ids.  I/O operations are
modelled by their state effect on those structures; random values become
explicit parameters.
-/

namespace Autofill

/-- JavaScript `haystack.includes(needle)` on the character lists of the two
strings: `true` iff `sub` occurs contiguously inside `s`. -/
def containsSub (sub : List Char) : List Char → Bool
  | [] => sub.isEmpty
  | c :: rest => sub.isPrefixOf (c :: rest) || containsSub sub rest

/-- JavaScript `s.includes(sub)` for strings. -/
def strContains (s sub : String) : Bool :=
  containsSub sub.data s.data

/-- JavaScript `s.toLowerCase()` (ASCII range, which covers every string the
heuristics compare). -/
def lowerStr (s : String) : String :=
  ⟨s.data.map Char.toLower⟩

/-- JavaScript `array.join(' ')`. -/
def joinSpace : List String → String
  | [] => ""
  | [s] => s
  | s :: rest => s ++ " " ++ joinSpace rest

/-- Lookup of key `k` in a JavaScript object modelled as an association list
(`formData[k] !== undefined` and the value read). -/
def lookupFD (fd : List (String × String)) (k : String) : Option String :=
  (fd.find? (fun p => p.1 == k)).map (·.2)

/-! ## Form Field Inference Engine — `FormLogic.getValueForField`
(`src/browser/browsermanager.js`, formlogic module, lines 531–555)

A detected field carries `name`, `id` and inferred `purpose` attributes; a
DOM attribute that is absent is the empty string, which is falsy in the
JavaScript guards `field.name && …`. -/

/-- The attributes of a `DetectedField` consulted by `getValueForField`
(`name`, `id`, `purpose`) and by the `fillForm` bookkeeping (`type`, the
generated CSS `selector`). -/
structure Field where
  name : String
  id : String
  purpose : String
  type : String
  selector : String
deriving Repr, DecidableEq

/-- Tier 4 of `getValueForField`: fuzzy matching.  `fieldKey` is the
JavaScript `field.name || field.id || ''`; the loop returns the value of the
first `formData` entry whose key is a case-insensitive substring of
`fieldKey`. -/
def fuzzyMatch (f : Field) (fd : List (String × String)) : Option String :=
  let fieldKey := if f.name ≠ "" then f.name else if f.id ≠ "" then f.id else ""
  (fd.find? (fun p => strContains (lowerStr fieldKey) (lowerStr p.1))).map (·.2)

/-- `FormLogic.getValueForField(field, formData)`: exact `name` match, then
exact `id` match, then exact `purpose` match, then fuzzy matching, else
`null` (modelled as `none`). -/
def getValueForField (f : Field) (fd : List (String × String)) : Option String :=
  match (if f.name ≠ "" then lookupFD fd f.name else none) with
  | some v => some v
  | none =>
    match (if f.id ≠ "" then lookupFD fd f.id else none) with
    | some v => some v
    | none =>
      match (if f.purpose ≠ "" then lookupFD fd f.purpose else none) with
      | some v => some v
      | none => fuzzyMatch f fd

/-- C2: `getValueForField` resolves in the fixed tier order — (1) exact
`field.name` match, (2) exact `field.id` match, (3) exact `field.purpose`
match, (4) fuzzy substring match in `formData` iteration order — and in
particular an exact name (or, when the name tier yields nothing, id) match is
returned even when a different key would also satisfy the purpose-based or
fuzzy tiers. -/
theorem getValueForField_tier_priority (f : Field) (fd : List (String × String)) (v : String) :
    (f.name ≠ "" → lookupFD fd f.name = some v → getValueForField f fd = some v) ∧
    ((f.name = "" ∨ lookupFD fd f.name = none) → f.id ≠ "" → lookupFD fd f.id = some v →
      getValueForField f fd = some v) ∧
    ((f.name = "" ∨ lookupFD fd f.name = none) → (f.id = "" ∨ lookupFD fd f.id = none) →
      f.purpose ≠ "" → lookupFD fd f.purpose = some v → getValueForField f fd = some v) ∧
    ((f.name = "" ∨ lookupFD fd f.name = none) → (f.id = "" ∨ lookupFD fd f.id = none) →
      (f.purpose = "" ∨ lookupFD fd f.purpose = none) →
      getValueForField f fd = fuzzyMatch f fd) := by
  refine ⟨?_, ?_, ?_, ?_⟩
  · intro h1 h2
    simp [getValueForField, h1, h2]
  · intro hn hi1 hi2
    rcases hn with h | h <;> simp [getValueForField, h, hi1, hi2]
  · intro hn hi hp1 hp2
    rcases hn with h | h <;> rcases hi with h' | h' <;>
      simp [getValueForField, h, h', hp1, hp2]
  · intro hn hi hp
    rcases hn with h | h <;> rcases hi with h' | h' <;> rcases hp with h'' | h'' <;>
      simp [getValueForField, h, h', h'']

/-- Witness for C2 at a concrete input: the field name `user_email` has an
exact `formData` match whose value wins even though the `email` key would
also match via the purpose tier and the fuzzy tier. -/
theorem getValueForField_tier_priority_witness :
    getValueForField ⟨"user_email", "uid", "email", "text", "#uid"⟩
      [("email", "purposeValue"), ("user_email", "nameValue")] = some "nameValue" :=
  (getValueForField_tier_priority ⟨"user_email", "uid", "email", "text", "#uid"⟩
      [("email", "purposeValue"), ("user_email", "nameValue")] "nameValue").1
    (by decide) (by decide)

/-! ## Form Field Inference Engine — `FormLogic.inferFieldPurpose`
(`src/browser/browsermanager.js`, formlogic module, lines 459–523)

The classifier runs in page context on a DOM element; the attributes it reads
are modelled as strings, with `""` standing for an absent attribute (both the
empty string and `null` are falsy and are dropped by `filter(Boolean)`). -/

/-- The DOM element attributes consulted by `inferFieldPurpose`. -/
structure DomElement where
  name : String
  id : String
  placeholder : String
  className : String
  ariaLabel : String
  autocomplete : String
  type : String
  tagName : String
deriving Repr, DecidableEq

/-- The concatenated lowercase attribute string:
`[name, id, placeholder, className, aria-label, autocomplete].filter(Boolean).join(' ').toLowerCase()`. -/
def attrsOf (e : DomElement) : String :=
  lowerStr (joinSpace
    (([e.name, e.id, e.placeholder, e.className, e.ariaLabel, e.autocomplete]).filter
      (fun s => s ≠ "")))

/-- `FormLogic.inferFieldPurpose(element)`: fixed-priority cascade of substring
tests over the concatenated attribute string, first match wins. -/
def inferFieldPurpose (e : DomElement) : String :=
  if strContains (attrsOf e) "email" || e.type == "email" then "email"
  else if strContains (attrsOf e) "firstname" || strContains (attrsOf e) "first-name"
      || strContains (attrsOf e) "fname" then "firstName"
  else if strContains (attrsOf e) "lastname" || strContains (attrsOf e) "last-name"
      || strContains (attrsOf e) "lname" then "lastName"
  else if strContains (attrsOf e) "name" && !(strContains (attrsOf e) "user") then "fullName"
  else if strContains (attrsOf e) "phone" || strContains (attrsOf e) "tel"
      || e.type == "tel" then "phone"
  else if strContains (attrsOf e) "address" then "address"
  else if strContains (attrsOf e) "city" then "city"
  else if strContains (attrsOf e) "state" || strContains (attrsOf e) "province" then "state"
  else if strContains (attrsOf e) "zip" || strContains (attrsOf e) "postal" then "zip"
  else if strContains (attrsOf e) "country" then "country"
  else if e.type == "date" || strContains (attrsOf e) "date"
      || strContains (attrsOf e) "dob" then "date"
  else if e.type == "url" || strContains (attrsOf e) "website"
      || strContains (attrsOf e) "url" then "url"
  else if strContains (attrsOf e) "message" || strContains (attrsOf e) "comment"
      || e.tagName == "TEXTAREA" then "message"
  else "text"

/-- C4: `inferFieldPurpose` tests its purpose predicates in a fixed priority
order with first match winning; in particular, whenever the concatenated
lowercase attribute string contains both the substring `"email"` and the
substring `"name"`, the returned purpose is `"email"`, not a name purpose. -/
theorem inferFieldPurpose_email_first (e : DomElement)
    (hemail : strContains (attrsOf e) "email" = true)
    (_hname : strContains (attrsOf e) "name" = true) :
    inferFieldPurpose e = "email" := by
  simp [inferFieldPurpose, hemail]

/-- Witness for C4 at a concrete input: an element whose attributes contain
both `"email"` and `"name"` is classified as `email`. -/
theorem inferFieldPurpose_email_first_witness :
    inferFieldPurpose ⟨"email", "", "Your name", "", "", "", "text", "INPUT"⟩ = "email" :=
  inferFieldPurpose_email_first ⟨"email", "", "Your name", "", "", "", "text", "INPUT"⟩
    (by decide) (by decide)

/-! ## Proxy username construction — `BrowserManager.launchBrowser`
(`src/browser/browsermanager.js`, lines 47–87)

The configured proxy fields (`config.proxy.*`); an unset location field is
the empty string, which is falsy in the JavaScript guards
`if (config.proxy.country) { … }`. -/

/-- The proxy configuration fields consulted when building the username. -/
structure ProxyConfig where
  decodServer : String
  username : String
  country : String
  state : String
  city : String
deriving Repr, DecidableEq

/-- The routing-format test `/^[a-z]{2}\.decodo\.com/i.test(server)`: two
ASCII letters at the start, then literally `.decodo.com`
(case-insensitively), with anything allowed after. -/
def isSubdomainRouting (server : String) : Bool :=
  match server.data with
  | a :: b :: rest =>
    a.isAlpha && b.isAlpha && List.isPrefixOf ".decodo.com".data (rest.map Char.toLower)
  | _ => false

/-- The `locationPart` string accumulated for the username-suffix format:
only the non-empty parts, in the fixed order country, state, city. -/
def locationPart (cfg : ProxyConfig) : String :=
  (if cfg.country ≠ "" then "-country-" ++ cfg.country else "") ++
  (if cfg.state ≠ "" then "-state-" ++ cfg.state else "") ++
  (if cfg.city ≠ "" then "-city-" ++ cfg.city else "")

/-- The proxy username constructed in `launchBrowser`: the configured
username verbatim under subdomain routing, else
`username ++ locationPart ++ "-session-" ++ sessionId`. -/
def buildProxyUsername (cfg : ProxyConfig) (sessionId : String) : String :=
  if isSubdomainRouting cfg.decodServer then cfg.username
  else cfg.username ++ locationPart cfg ++ "-session-" ++ sessionId

/-- Counterexample to C3 as stated: for the two-letter-subdomain host
`us.provider.com` the claim asserts the constructed username is the
configured username unmodified, but the code only recognises two-letter
subdomains of `decodo.com`, so `us.provider.com` falls into the suffix
format. -/
theorem buildProxyUsername_subdomain_cex :
    buildProxyUsername ⟨"us.provider.com", "user", "us", "texas", ""⟩ "sid1"
        = "user-country-us-state-texas-session-sid1" ∧
    buildProxyUsername ⟨"us.provider.com", "user", "us", "texas", ""⟩ "sid1" ≠ "user" := by
  constructor
  · decide
  · decide

/-- C3 (amended): the subdomain format is recognised only for two-letter
subdomains of `decodo.com` (e.g. `us.decodo.com`), where the username is
used unmodified; every other host — including `us.provider.com` and the
gateway host `gate.provider.com` — gets the suffix format
`{username}-country-us-state-texas-session-{sessionId}` when country=`us`
and state=`texas` are configured, appending only the non-empty location
parts in fixed order and always the session part. -/
theorem buildProxyUsername_amended (u sid : String) :
    buildProxyUsername ⟨"us.decodo.com:10001", u, "us", "texas", ""⟩ sid = u ∧
    buildProxyUsername ⟨"gate.provider.com", u, "us", "texas", ""⟩ sid
        = u ++ "-country-us-state-texas-session-" ++ sid ∧
    buildProxyUsername ⟨"us.provider.com", u, "us", "texas", ""⟩ sid
        = u ++ "-country-us-state-texas-session-" ++ sid ∧
    buildProxyUsername ⟨"gate.decodo.com:7000", u, "us", "texas", ""⟩ sid
        = u ++ "-country-us-state-texas-session-" ++ sid := by
  have hsub : isSubdomainRouting "us.decodo.com:10001" = true := by decide
  have h1 : isSubdomainRouting "gate.provider.com" = false := by decide
  have h2 : isSubdomainRouting "us.provider.com" = false := by decide
  have h3 : isSubdomainRouting "gate.decodo.com:7000" = false := by decide
  refine ⟨?_, ?_, ?_, ?_⟩ <;>
    simp [buildProxyUsername, locationPart, hsub, h1, h2, h3, String.append_assoc]

/-! ## Generic submission verification — `FormLogic.verifySubmission`
(`src/browser/browsermanager.js`, formlogic module, lines 678–755)

The page is modelled by its current URL, its HTML content, and the list of
CSS selectors that have at least one matching element (so
`page.locator(sel).count()` is the multiplicity of `sel` in that list).
The optional `successIndicators` fields are `Option`s, `none` standing for
an absent (falsy) property. -/

/-- The page state consulted by the verification heuristics. -/
structure PageState where
  url : String
  content : String
  selectors : List String
deriving Repr, DecidableEq

/-- The optional structured success hints of a task. -/
structure SuccessIndicators where
  successUrl : Option String := none
  successMessage : Option String := none
  successSelector : Option String := none
deriving Repr, DecidableEq

/-- The verification verdict `{success, method, message}`; `method` is `none`
when no check matched. -/
structure VerifResult where
  success : Bool
  method : Option String
  message : String
deriving Repr, DecidableEq

/-- `page.locator(sel).count()`. -/
def selCount (page : PageState) (sel : String) : Nat :=
  page.selectors.count sel

/-- The fixed generic success-keyword list. -/
def successKeywords : List String :=
  ["success", "thank you", "submitted", "received", "complete"]

/-- The fixed generic error-keyword list. -/
def errorKeywords : List String :=
  ["error", "invalid", "required", "failed", "incorrect"]

/-- The first keyword of `keywords` (in list order) contained in `content`,
mirroring the `for … of` loops with early `return`. -/
def firstContained (keywords : List String) (content : String) : Option String :=
  keywords.find? (fun k => strContains content k)

/-- Condition of the configured-success-URL check:
`successIndicators.successUrl` is set and `page.url()` contains it. -/
def tierUrl (page : PageState) (si : SuccessIndicators) : Bool :=
  match si.successUrl with
  | some u => strContains page.url u
  | none => false

/-- Condition of the configured-success-message check. -/
def tierMessage (page : PageState) (si : SuccessIndicators) : Bool :=
  match si.successMessage with
  | some m => strContains page.content m
  | none => false

/-- Condition of the configured-success-selector check. -/
def tierElement (page : PageState) (si : SuccessIndicators) : Bool :=
  match si.successSelector with
  | some s => decide (0 < selCount page s)
  | none => false

/-- `FormLogic.verifySubmission(page, successIndicators)`: ordered heuristic
cascade — configured URL substring, configured message substring, configured
selector, generic success keywords, generic error keywords — first matching
check returns; otherwise the unable-to-determine result. -/
def verifySubmission (page : PageState) (si : SuccessIndicators) : VerifResult :=
  if tierUrl page si then
    ⟨true, some "url", "URL changed to " ++ page.url⟩
  else if tierMessage page si then
    ⟨true, some "message", "Success message found"⟩
  else if tierElement page si then
    ⟨true, some "element", "Success element found"⟩
  else
    match firstContained successKeywords (lowerStr page.content) with
    | some k => ⟨true, some "keyword", "Found keyword: " ++ k⟩
    | none =>
      match firstContained errorKeywords (lowerStr page.content) with
      | some k => ⟨false, some "error", "Found error keyword: " ++ k⟩
      | none => ⟨false, none, "Unable to determine submission status"⟩

/-- C5: `verifySubmission` evaluates its checks in the fixed order
url → message → element → success keywords → error keywords; the first
matching check alone determines `{success, method, message}`, success
keywords are checked before error keywords (so a page containing both
reports success), and when no check matches the result is
`{success := false, method := none}` with the unable-to-determine message. -/
theorem verifySubmission_cascade (page : PageState) (si : SuccessIndicators) :
    (tierUrl page si = true →
      verifySubmission page si = ⟨true, some "url", "URL changed to " ++ page.url⟩) ∧
    (tierUrl page si = false → tierMessage page si = true →
      verifySubmission page si = ⟨true, some "message", "Success message found"⟩) ∧
    (tierUrl page si = false → tierMessage page si = false → tierElement page si = true →
      verifySubmission page si = ⟨true, some "element", "Success element found"⟩) ∧
    (∀ k, tierUrl page si = false → tierMessage page si = false → tierElement page si = false →
      firstContained successKeywords (lowerStr page.content) = some k →
      verifySubmission page si = ⟨true, some "keyword", "Found keyword: " ++ k⟩) ∧
    (∀ k, tierUrl page si = false → tierMessage page si = false → tierElement page si = false →
      firstContained successKeywords (lowerStr page.content) = none →
      firstContained errorKeywords (lowerStr page.content) = some k →
      verifySubmission page si = ⟨false, some "error", "Found error keyword: " ++ k⟩) ∧
    (tierUrl page si = false → tierMessage page si = false → tierElement page si = false →
      firstContained successKeywords (lowerStr page.content) = none →
      firstContained errorKeywords (lowerStr page.content) = none →
      verifySubmission page si = ⟨false, none, "Unable to determine submission status"⟩) := by
  refine ⟨?_, ?_, ?_, ?_, ?_, ?_⟩ <;> intros <;> simp [verifySubmission, *]

/-- Witness for C5 at concrete inputs: a page whose content contains both a
success keyword and an error keyword reports success via the keyword check,
and a page matching nothing yields the unable-to-determine result. -/
theorem verifySubmission_cascade_witness :
    verifySubmission ⟨"http://x/submit", "Thank you! success. error: none", []⟩ ⟨none, none, none⟩
        = ⟨true, some "keyword", "Found keyword: success"⟩ ∧
    verifySubmission ⟨"http://x/submit", "pending", []⟩ ⟨none, none, none⟩
        = ⟨false, none, "Unable to determine submission status"⟩ := by
  constructor
  · exact (verifySubmission_cascade
        ⟨"http://x/submit", "Thank you! success. error: none", []⟩ ⟨none, none, none⟩).2.2.2.1
      "success" (by decide) (by decide) (by decide) (by decide)
  · exact (verifySubmission_cascade ⟨"http://x/submit", "pending", []⟩ ⟨none, none, none⟩).2.2.2.2.2
      (by decide) (by decide) (by decide) (by decide) (by decide)

/-! ## Specialized checkout verification — `CartPandaCheckout.verifyCheckoutSuccess`
(cartpanda checkout module, lines 214–296)

The polling loop reads the page URL and body text once per iteration and
sleeps a fixed interval between iterations until the 90-second budget is
spent; the page state at iteration `n` is modelled as `pages n`, and the
time budget as the number of polling iterations it allows (`budget`).
Order-number extraction (`extractOrderNumber`) runs only on the success
path and the claims do not depend on its value, so it is passed as an
abstract `extractOrder` function. -/

/-- Snapshot of the checkout page at one polling iteration. -/
structure Snapshot where
  url : String
  bodyText : String
deriving Repr, DecidableEq

/-- `successIndicators.some(...)` of an iteration: fixed success URL
substrings and bilingual success phrases. -/
def checkoutSuccessIndicator (p : Snapshot) : Bool :=
  strContains p.url "/thank-you" || strContains p.url "/success" ||
  strContains p.url "/confirmation" || strContains p.url "/order-complete" ||
  strContains p.bodyText "Obrigado" || strContains p.bodyText "Thank you" ||
  strContains p.bodyText "Pedido confirmado" || strContains p.bodyText "Order confirmed" ||
  strContains p.bodyText "Compra realizada" || strContains p.bodyText "Purchase complete"

/-- `errorIndicators.some(...)` of an iteration: bilingual decline/error
phrases in the body text. -/
def checkoutErrorIndicator (p : Snapshot) : Bool :=
  strContains p.bodyText "declined" || strContains p.bodyText "recusado" ||
  strContains p.bodyText "error" || strContains p.bodyText "erro" ||
  strContains p.bodyText "failed" || strContains p.bodyText "falhou"

/-- The verdict of `verifyCheckoutSuccess`; `orderNumber` is `none` on the
failure paths (the JavaScript object simply lacks the property there). -/
structure CheckoutVerification where
  success : Bool
  method : String
  message : String
  url : String
  orderNumber : Option String := none
deriving Repr, DecidableEq

/-- The `while (Date.now() - startTime < maxWaitTime)` polling loop of
`verifyCheckoutSuccess`, at iteration `i` with `fuel` iterations left in
the budget: success indicators are checked first, then error indicators;
either ends the loop, otherwise it sleeps and polls again; an exhausted
budget yields the distinct timeout verdict. -/
def verifyCheckoutLoop (pages : Nat → Snapshot) (extractOrder : Snapshot → Option String) :
    Nat → Nat → CheckoutVerification
  | i, 0 =>
    ⟨false, "timeout", "Could not verify checkout success within 90 seconds", (pages i).url, none⟩
  | i, fuel + 1 =>
    if checkoutSuccessIndicator (pages i) then
      ⟨true, "cartpanda_success_detection", "Checkout completed successfully",
        (pages i).url, extractOrder (pages i)⟩
    else if checkoutErrorIndicator (pages i) then
      ⟨false, "cartpanda_error_detection", "Payment was declined or failed", (pages i).url, none⟩
    else
      verifyCheckoutLoop pages extractOrder (i + 1) fuel

/-- `CartPandaCheckout.verifyCheckoutSuccess(page)`: run the polling loop
from the first iteration with the full budget. -/
def verifyCheckoutSuccess (pages : Nat → Snapshot) (extractOrder : Snapshot → Option String)
    (budget : Nat) : CheckoutVerification :=
  verifyCheckoutLoop pages extractOrder 0 budget

theorem verifyCheckoutLoop_decline (pages : Nat → Snapshot)
    (extractOrder : Snapshot → Option String) :
    ∀ k fuel i, k < fuel →
    (∀ j, j ≤ k → checkoutSuccessIndicator (pages (i + j)) = false) →
    (∀ j, j < k → checkoutErrorIndicator (pages (i + j)) = false) →
    checkoutErrorIndicator (pages (i + k)) = true →
    verifyCheckoutLoop pages extractOrder i fuel
      = ⟨false, "cartpanda_error_detection", "Payment was declined or failed",
          (pages (i + k)).url, none⟩ := by
  intro k
  induction k with
  | zero =>
    intro fuel i hk hs _ he
    match fuel, hk with
    | fuel + 1, _ =>
      have hs0 := hs 0 (Nat.le_refl 0)
      simp only [Nat.add_zero] at hs0 he ⊢
      simp [verifyCheckoutLoop, hs0, he]
  | succ k ih =>
    intro fuel i hk hs he herr
    match fuel, hk with
    | fuel + 1, hk =>
      have hs0 := hs 0 (Nat.zero_le _)
      have he0 := he 0 (Nat.succ_pos _)
      simp only [Nat.add_zero] at hs0 he0
      have := ih fuel (i + 1) (Nat.lt_of_succ_lt_succ hk)
        (fun j hj => by
          have := hs (j + 1) (Nat.succ_le_succ hj)
          simpa [Nat.add_assoc, Nat.add_comm 1 j] using this)
        (fun j hj => by
          have := he (j + 1) (Nat.succ_lt_succ hj)
          simpa [Nat.add_assoc, Nat.add_comm 1 j] using this)
        (by simpa [Nat.add_assoc, Nat.add_comm 1 k] using herr)
      simp only [verifyCheckoutLoop, hs0, he0, Bool.false_eq_true, if_false]
      simpa [Nat.add_assoc, Nat.add_comm 1 k] using this

theorem verifyCheckoutLoop_timeout (pages : Nat → Snapshot)
    (extractOrder : Snapshot → Option String) :
    ∀ fuel i,
    (∀ j, j < fuel → checkoutSuccessIndicator (pages (i + j)) = false ∧
      checkoutErrorIndicator (pages (i + j)) = false) →
    verifyCheckoutLoop pages extractOrder i fuel
      = ⟨false, "timeout", "Could not verify checkout success within 90 seconds",
          (pages (i + fuel)).url, none⟩ := by
  intro fuel
  induction fuel with
  | zero => intro i _; simp [verifyCheckoutLoop]
  | succ fuel ih =>
    intro i h
    have h0 := h 0 (Nat.succ_pos _)
    simp only [Nat.add_zero] at h0
    have := ih (i + 1) (fun j hj => by
      have := h (j + 1) (Nat.succ_lt_succ hj)
      simpa [Nat.add_assoc, Nat.add_comm 1 j] using this)
    simp only [verifyCheckoutLoop, h0.1, h0.2, Bool.false_eq_true, if_false]
    simpa [Nat.add_assoc, Nat.add_comm 1 fuel] using this

/-- C7: if the checkout page shows a decline/error phrase at some polling
iteration `i` within the budget, with no success phrase up to then (and `i`
the first iteration with an error), the loop returns
`{success := false, method := "cartpanda_error_detection"}` in that
iteration, without waiting out the full budget; and if neither success nor
error phrases appear within the whole budget, it returns
`{success := false, method := "timeout"}`, distinguishable from the decline
outcome by the `method` field. -/
theorem verifyCheckoutSuccess_decline_vs_timeout (pages : Nat → Snapshot)
    (extractOrder : Snapshot → Option String) (budget : Nat) :
    (∀ i, i < budget →
      (∀ j, j ≤ i → checkoutSuccessIndicator (pages j) = false) →
      (∀ j, j < i → checkoutErrorIndicator (pages j) = false) →
      checkoutErrorIndicator (pages i) = true →
      verifyCheckoutSuccess pages extractOrder budget
        = ⟨false, "cartpanda_error_detection", "Payment was declined or failed",
            (pages i).url, none⟩) ∧
    ((∀ j, j < budget → checkoutSuccessIndicator (pages j) = false ∧
        checkoutErrorIndicator (pages j) = false) →
      verifyCheckoutSuccess pages extractOrder budget
        = ⟨false, "timeout", "Could not verify checkout success within 90 seconds",
            (pages budget).url, none⟩) := by
  constructor
  · intro i hi hs he herr
    have := verifyCheckoutLoop_decline pages extractOrder i budget 0 hi
      (fun j hj => by simpa using hs j hj)
      (fun j hj => by simpa using he j hj)
      (by simpa using herr)
    simpa [verifyCheckoutSuccess] using this
  · intro h
    have := verifyCheckoutLoop_timeout pages extractOrder budget 0
      (fun j hj => by simpa using h j hj)
    simpa [verifyCheckoutSuccess] using this

/-- Witness for C7 at concrete inputs: a page declaring "Payment declined"
at the very first poll ends the loop immediately with the
`cartpanda_error_detection` verdict even though 30 iterations of budget
remain, and a page that never shows either phrase family exhausts the
budget with the distinct `timeout` verdict. -/
theorem verifyCheckoutSuccess_decline_vs_timeout_witness :
    verifyCheckoutSuccess (fun _ => ⟨"http://shop/checkout", "Payment declined"⟩)
        (fun _ => none) 30
      = ⟨false, "cartpanda_error_detection", "Payment was declined or failed",
          "http://shop/checkout", none⟩ ∧
    verifyCheckoutSuccess (fun _ => ⟨"http://shop/checkout", "processing"⟩)
        (fun _ => none) 30
      = ⟨false, "timeout", "Could not verify checkout success within 90 seconds",
          "http://shop/checkout", none⟩ := by
  constructor
  · exact (verifyCheckoutSuccess_decline_vs_timeout
        (fun _ => ⟨"http://shop/checkout", "Payment declined"⟩) (fun _ => none) 30).1
      0 (by decide)
      (fun j hj => by decide)
      (fun j hj => by omega)
      (by decide)
  · exact (verifyCheckoutSuccess_decline_vs_timeout
        (fun _ => ⟨"http://shop/checkout", "processing"⟩) (fun _ => none) 30).2
      (fun j hj => by constructor <;> decide)

theorem verifyCheckoutLoop_success (pages : Nat → Snapshot)
    (extractOrder : Snapshot → Option String) :
    ∀ k fuel i, k < fuel →
    (∀ j, j < k → checkoutSuccessIndicator (pages (i + j)) = false ∧
      checkoutErrorIndicator (pages (i + j)) = false) →
    checkoutSuccessIndicator (pages (i + k)) = true →
    verifyCheckoutLoop pages extractOrder i fuel
      = ⟨true, "cartpanda_success_detection", "Checkout completed successfully",
          (pages (i + k)).url, extractOrder (pages (i + k))⟩ := by
  intro k
  induction k with
  | zero =>
    intro fuel i hk _ hs
    match fuel, hk with
    | fuel + 1, _ =>
      simp only [Nat.add_zero] at hs ⊢
      simp [verifyCheckoutLoop, hs]
  | succ k ih =>
    intro fuel i hk h hs
    match fuel, hk with
    | fuel + 1, hk =>
      have h0 := h 0 (Nat.succ_pos _)
      simp only [Nat.add_zero] at h0
      have := ih fuel (i + 1) (Nat.lt_of_succ_lt_succ hk)
        (fun j hj => by
          have := h (j + 1) (Nat.succ_lt_succ hj)
          simpa [Nat.add_assoc, Nat.add_comm 1 j] using this)
        (by simpa [Nat.add_assoc, Nat.add_comm 1 k] using hs)
      simp only [verifyCheckoutLoop, h0.1, h0.2, Bool.false_eq_true, if_false]
      simpa [Nat.add_assoc, Nat.add_comm 1 k] using this

/-- C10 (implicit): within each polling iteration the success-indicator list
is evaluated before the error-indicator list, so a page state satisfying a
success indicator whose body text simultaneously contains an error word
yields `{success := true}` in that iteration, not the decline outcome. -/
theorem verifyCheckoutSuccess_success_priority (pages : Nat → Snapshot)
    (extractOrder : Snapshot → Option String) (budget i : Nat)
    (hi : i < budget)
    (hprev : ∀ j, j < i → checkoutSuccessIndicator (pages j) = false ∧
      checkoutErrorIndicator (pages j) = false)
    (hsucc : checkoutSuccessIndicator (pages i) = true)
    (_herr : checkoutErrorIndicator (pages i) = true) :
    verifyCheckoutSuccess pages extractOrder budget
      = ⟨true, "cartpanda_success_detection", "Checkout completed successfully",
          (pages i).url, extractOrder (pages i)⟩ := by
  have := verifyCheckoutLoop_success pages extractOrder i budget 0 hi
    (fun j hj => by simpa using hprev j hj)
    (by simpa using hsucc)
  simpa [verifyCheckoutSuccess] using this

/-- Witness for C10 at a concrete input: a page whose body text contains
both the success phrase "Thank you" and the error word "error" reports
success in the first iteration. -/
theorem verifyCheckoutSuccess_success_priority_witness :
    verifyCheckoutSuccess (fun _ => ⟨"http://shop/checkout", "Thank you - no error"⟩)
        (fun _ => none) 30
      = ⟨true, "cartpanda_success_detection", "Checkout completed successfully",
          "http://shop/checkout", none⟩ :=
  verifyCheckoutSuccess_success_priority
    (fun _ => ⟨"http://shop/checkout", "Thank you - no error"⟩) (fun _ => none) 30 0
    (by decide) (fun j hj => by omega) (by decide) (by decide)

/-! ## Mouse-path generation — `generateMousePath`
(`src/utils/humanBehavior.js`, lines 31–64)

Coordinates are modelled as exact rationals (the JavaScript constants 0.25,
0.75, 0.5 and 100 are exactly representable, and the claim concerns the
construction, not floating-point rounding).  The four `Math.random()` draws
become explicit parameters `r1 … r4` with `0 ≤ r < 1`. -/

/-- A 2-D point with rational coordinates. -/
structure Point where
  x : ℚ
  y : ℚ
deriving Repr, DecidableEq

/-- A point with integer (rounded) coordinates, as pushed onto the path. -/
structure IPoint where
  x : ℤ
  y : ℤ
deriving Repr, DecidableEq

/-- JavaScript `Math.round`: round half toward positive infinity. -/
def jsRound (q : ℚ) : ℤ :=
  ⌊q + 1 / 2⌋

/-- Rounding both coordinates of a point. -/
def roundPoint (p : Point) : IPoint :=
  ⟨jsRound p.x, jsRound p.y⟩

/-- A perturbed control point: the linear interpolation of `a` and `b` at
parameter `t`, offset per coordinate by `(random - 0.5) * 100`. -/
def controlPoint (a b : Point) (t rx ry : ℚ) : Point :=
  ⟨a.x + (b.x - a.x) * t + (rx - 1 / 2) * 100,
   a.y + (b.y - a.y) * t + (ry - 1 / 2) * 100⟩

/-- The cubic Bezier through `a`, `cp1`, `cp2`, `b` evaluated at `t`. -/
def bezierAt (a b cp1 cp2 : Point) (t : ℚ) : Point :=
  ⟨(1 - t) * (1 - t) * (1 - t) * a.x + 3 * (1 - t) * (1 - t) * t * cp1.x +
      3 * (1 - t) * t * t * cp2.x + t * t * t * b.x,
   (1 - t) * (1 - t) * (1 - t) * a.y + 3 * (1 - t) * (1 - t) * t * cp1.y +
      3 * (1 - t) * t * t * cp2.y + t * t * t * b.y⟩

/-- `generateMousePath(from, to, steps)`: control points at t = 0.25 and
t = 0.75 perturbed by the four random draws, then one rounded sample for
each `i` in `0 … steps` (inclusive) at parameter `i / steps`. -/
def generateMousePath (fromP toP : Point) (steps : Nat) (r1 r2 r3 r4 : ℚ) : List IPoint :=
  let cp1 := controlPoint fromP toP (1 / 4) r1 r2
  let cp2 := controlPoint fromP toP (3 / 4) r3 r4
  (List.range (steps + 1)).map
    (fun (i : Nat) => roundPoint (bezierAt fromP toP cp1 cp2 ((i : ℚ) / (steps : ℚ))))

theorem bezierAt_zero (a b cp1 cp2 : Point) : bezierAt a b cp1 cp2 0 = a := by
  cases a
  simp only [bezierAt, Point.mk.injEq]
  constructor <;> ring

theorem bezierAt_one (a b cp1 cp2 : Point) : bezierAt a b cp1 cp2 1 = b := by
  cases b
  simp only [bezierAt, Point.mk.injEq]
  constructor <;> ring

theorem mapRange_length {α : Type} (f : Nat → α) (n : Nat) :
    ((List.range n).map f).length = n := by
  rw [List.length_map, List.length_range]

theorem mapRange_head? {α : Type} (f : Nat → α) (n : Nat) :
    ((List.range (n + 1)).map f).head? = some (f 0) := by
  rw [List.range_succ_eq_map, List.map_cons, List.head?_cons]

theorem mapRange_getLast? {α : Type} (f : Nat → α) (n : Nat) :
    ((List.range (n + 1)).map f).getLast? = some (f n) := by
  rw [List.range_succ, List.map_append, List.map_cons, List.map_nil, List.getLast?_concat]

theorem offset_abs_le (r : ℚ) (h0 : 0 ≤ r) (h1 : r < 1) : |(r - 1 / 2) * 100| ≤ 50 := by
  rw [abs_mul, abs_of_nonneg (by norm_num : (0 : ℚ) ≤ 100)]
  have h : |r - 1 / 2| ≤ 1 / 2 := abs_le.mpr ⟨by linarith, by linarith⟩
  calc |r - 1 / 2| * 100 ≤ 1 / 2 * 100 :=
        mul_le_mul_of_nonneg_right h (by norm_num)
    _ = 50 := by norm_num

/-- Counterexample to C9 as stated: the sampling loop runs from `i = 0` to
`i = steps` inclusive, so for `steps = 1` the path holds 2 points, not
"exactly `steps` points". -/
theorem generateMousePath_count_cex :
    (generateMousePath ⟨0, 0⟩ ⟨10, 10⟩ 1 (1 / 2) (1 / 2) (1 / 2) (1 / 2)).length ≠ 1 ∧
    (generateMousePath ⟨0, 0⟩ ⟨10, 10⟩ 1 (1 / 2) (1 / 2) (1 / 2) (1 / 2)).length = 2 := by
  have h : (generateMousePath ⟨0, 0⟩ ⟨10, 10⟩ 1 (1 / 2) (1 / 2) (1 / 2) (1 / 2)).length = 2 := by
    simp only [generateMousePath]
    rw [mapRange_length]
  exact ⟨by rw [h]; decide, h⟩

/-- C9 (amended): for every `from`/`to` point, positive `steps`, and random
draws in `[0, 1)`, `generateMousePath` builds a cubic Bezier whose two
control points are the linear interpolations at t = 0.25 and t = 0.75, each
offset by at most ±50 per coordinate, and samples `steps + 1` points (one
per `i` in `0 … steps`), starting at the rounding of `from` and ending at
the rounding of `to`. -/
theorem generateMousePath_amended (fromP toP : Point) (steps : Nat) (r1 r2 r3 r4 : ℚ)
    (hsteps : 0 < steps)
    (hr1 : 0 ≤ r1 ∧ r1 < 1) (hr2 : 0 ≤ r2 ∧ r2 < 1)
    (hr3 : 0 ≤ r3 ∧ r3 < 1) (hr4 : 0 ≤ r4 ∧ r4 < 1) :
    (generateMousePath fromP toP steps r1 r2 r3 r4).length = steps + 1 ∧
    (generateMousePath fromP toP steps r1 r2 r3 r4).head? = some (roundPoint fromP) ∧
    (generateMousePath fromP toP steps r1 r2 r3 r4).getLast? = some (roundPoint toP) ∧
    |(controlPoint fromP toP (1 / 4) r1 r2).x - (fromP.x + (toP.x - fromP.x) * (1 / 4))| ≤ 50 ∧
    |(controlPoint fromP toP (1 / 4) r1 r2).y - (fromP.y + (toP.y - fromP.y) * (1 / 4))| ≤ 50 ∧
    |(controlPoint fromP toP (3 / 4) r3 r4).x - (fromP.x + (toP.x - fromP.x) * (3 / 4))| ≤ 50 ∧
    |(controlPoint fromP toP (3 / 4) r3 r4).y - (fromP.y + (toP.y - fromP.y) * (3 / 4))| ≤ 50 := by
  have hcast : (steps : ℚ) ≠ 0 := Nat.cast_ne_zero.mpr hsteps.ne'
  refine ⟨?_, ?_, ?_, ?_, ?_, ?_, ?_⟩
  · simp only [generateMousePath]
    rw [mapRange_length]
  · simp only [generateMousePath]
    rw [mapRange_head?, Nat.cast_zero, zero_div, bezierAt_zero]
  · simp only [generateMousePath]
    rw [mapRange_getLast?, div_self hcast, bezierAt_one]
  · have h : (controlPoint fromP toP (1 / 4) r1 r2).x -
        (fromP.x + (toP.x - fromP.x) * (1 / 4)) = (r1 - 1 / 2) * 100 := by
      simp only [controlPoint]; ring
    rw [h]; exact offset_abs_le r1 hr1.1 hr1.2
  · have h : (controlPoint fromP toP (1 / 4) r1 r2).y -
        (fromP.y + (toP.y - fromP.y) * (1 / 4)) = (r2 - 1 / 2) * 100 := by
      simp only [controlPoint]; ring
    rw [h]; exact offset_abs_le r2 hr2.1 hr2.2
  · have h : (controlPoint fromP toP (3 / 4) r3 r4).x -
        (fromP.x + (toP.x - fromP.x) * (3 / 4)) = (r3 - 1 / 2) * 100 := by
      simp only [controlPoint]; ring
    rw [h]; exact offset_abs_le r3 hr3.1 hr3.2
  · have h : (controlPoint fromP toP (3 / 4) r3 r4).y -
        (fromP.y + (toP.y - fromP.y) * (3 / 4)) = (r4 - 1 / 2) * 100 := by
      simp only [controlPoint]; ring
    rw [h]; exact offset_abs_le r4 hr4.1 hr4.2

/-- Witness for C9 (amended) at a concrete input: a 2-step path from (0,0)
to (100,100) with central random draws has 3 points, starts at (0,0), ends
at (100,100), and its first control point sits exactly on the t = 0.25
interpolation. -/
theorem generateMousePath_amended_witness :
    (generateMousePath ⟨0, 0⟩ ⟨100, 100⟩ 2 (1 / 2) (1 / 2) (1 / 2) (1 / 2)).length = 3 ∧
    (generateMousePath ⟨0, 0⟩ ⟨100, 100⟩ 2 (1 / 2) (1 / 2) (1 / 2) (1 / 2)).head?
        = some ⟨0, 0⟩ ∧
    (generateMousePath ⟨0, 0⟩ ⟨100, 100⟩ 2 (1 / 2) (1 / 2) (1 / 2) (1 / 2)).getLast?
        = some ⟨100, 100⟩ ∧
    |(controlPoint ⟨0, 0⟩ ⟨100, 100⟩ (1 / 4) (1 / 2) (1 / 2)).x -
        ((0 : ℚ) + (100 - 0) * (1 / 4))| ≤ 50 := by
  have h := generateMousePath_amended ⟨0, 0⟩ ⟨100, 100⟩ 2 (1 / 2) (1 / 2) (1 / 2) (1 / 2)
    (by norm_num) (by constructor <;> norm_num) (by constructor <;> norm_num)
    (by constructor <;> norm_num) (by constructor <;> norm_num)
  refine ⟨h.1, ?_, ?_, h.2.2.2.1⟩
  · rw [h.2.1]
    norm_num [roundPoint, jsRound]
  · rw [h.2.2.1]
    norm_num [roundPoint, jsRound]

/-! ## Session/Profile Store — `ProfileManager`
(`src/utils/profiles.js`, lines 30–68)

The file system under the profiles root is modelled by the list of its
subdirectory names (every entry the manager creates is a directory). -/

/-- `ProfileManager.getProfilePath(accountId)`: the profile path, creating
the directory (recursively) when absent; returns the path together with the
updated root contents. -/
def getProfilePath (profiles : List String) (accountId : String) : String × List String :=
  (accountId, if accountId ∈ profiles then profiles else accountId :: profiles)

/-- `ProfileManager.deleteProfile(accountId)`: recursively remove the
directory when present; a no-op when absent. -/
def deleteProfile (profiles : List String) (accountId : String) : List String :=
  profiles.filter (fun p => p ≠ accountId)

/-- `ProfileManager.listProfiles()`: the subdirectory names under the
profiles root. -/
def listProfiles (profiles : List String) : List String :=
  profiles

/-- C8: round-trip of the profile store — `getProfilePath(id)` followed
immediately by `listProfiles()` yields a listing including `id`, and after
`deleteProfile(id)` the listing no longer includes `id`. -/
theorem profileStore_roundtrip (profiles : List String) (id : String) :
    id ∈ listProfiles (getProfilePath profiles id).2 ∧
    id ∉ listProfiles (deleteProfile (getProfilePath profiles id).2 id) := by
  constructor
  · by_cases h : id ∈ profiles <;> simp [getProfilePath, listProfiles, h]
  · simp [getProfilePath, deleteProfile, listProfiles, List.mem_filter]

/-! ## Job Orchestrator — `FormFillingWorker.processJob`
(`src/api/server.js`, lines 716–905)

Modelled at the session-resource level: the state is the browser registry,
the context registry (the two `Map`s of `BrowserManager`) and the profile
directories.  The browser-driving steps of the job body are abstracted into
the exit path the body takes; I/O teardown operations are modelled by their
success effect on that state. -/

/-- Registries and profile directories shared by the worker. -/
structure SysState where
  browsers : List String
  contexts : List String
  profiles : List String
deriving Repr, DecidableEq

/-- `BrowserManager.closeBrowser(accountId)`: close and deregister the
context, then the browser, for that id; idempotent. -/
def closeBrowser (s : SysState) (accountId : String) : SysState :=
  { s with contexts := s.contexts.filter (fun p => p ≠ accountId),
           browsers := s.browsers.filter (fun p => p ≠ accountId) }

/-- The exit path taken by one execution of the job body: a normal return
with successful verification, a normal return whose verification timed out,
the CAPTCHA abort, some other thrown error, or a browser-launch failure
(thrown after the profile directory was created but before the browser was
registered). -/
inductive ExitPath where
  | success
  | verifyTimeout
  | captchaAbort
  | bodyError (msg : String)
  | launchFailure (msg : String)
deriving Repr, DecidableEq

/-- `FormFillingWorker.processJob` at the session/profile level: the
try-body launches the browser (`getProfilePath` creates the profile
directory, then the browser and context are registered), runs the selected
path, and on a normal return deletes the profile in-body; the `catch` block
rethrows after a best-effort screenshot; the `finally` block unconditionally
closes the browser and then deletes the profile. -/
def processJob (sessionId : String) (path : ExitPath) (s0 : SysState) :
    Except String Bool × SysState :=
  let s1 : SysState := { s0 with profiles := (getProfilePath s0.profiles sessionId).2 }
  let s2 : SysState :=
    { s1 with browsers := sessionId :: s1.browsers, contexts := sessionId :: s1.contexts }
  let body : Except String Bool × SysState :=
    match path with
    | .launchFailure msg => (.error msg, s1)
    | .captchaAbort => (.error "CAPTCHA detected - manual intervention required", s2)
    | .bodyError msg => (.error msg, s2)
    | .success => (.ok true, { s2 with profiles := deleteProfile s2.profiles sessionId })
    | .verifyTimeout => (.ok false, { s2 with profiles := deleteProfile s2.profiles sessionId })
  let s3 := closeBrowser body.2 sessionId
  (body.1, { s3 with profiles := deleteProfile s3.profiles sessionId })

/-- C1: on every exit path of the job body — normal return, thrown error,
CAPTCHA abort, verification timeout, even a launch failure — the browser
session for the job's `sessionId` is closed and its profile directory
deleted before the job finishes: afterwards the profile directory does not
exist and no browser or context remains registered for that id. -/
theorem processJob_cleanup (sessionId : String) (path : ExitPath) (s : SysState) :
    sessionId ∉ (processJob sessionId path s).2.profiles ∧
    sessionId ∉ (processJob sessionId path s).2.browsers ∧
    sessionId ∉ (processJob sessionId path s).2.contexts := by
  cases path <;>
    simp [processJob, closeBrowser, deleteProfile, getProfilePath, List.mem_filter]

/-! ## Generic path CAPTCHA short-circuit
(`src/api/server.js`, lines 797–839 and `FormLogic.detectCaptcha`,
`src/browser/browsermanager.js`, formlogic module, lines 651–670)

The generic branch of the job body: CAPTCHA check, then `fillForm`, then
`submitForm`, then `verifySubmission`.  The detected fields of the page are
passed explicitly (they are the result of the DOM scan `detectFormFields`);
field interactions are modelled as succeeding, and a missing submit selector
aborts as `submitForm` throws. -/

/-- The fixed list of CAPTCHA indicator selectors of `detectCaptcha`. -/
def captchaIndicators : List String :=
  ["iframe[src*=\"recaptcha\"]", "iframe[src*=\"hcaptcha\"]", ".g-recaptcha", ".h-captcha",
   "#captcha", "[class*=\"captcha\"]"]

/-- `FormLogic.detectCaptcha(page)`: true iff any of the fixed CAPTCHA
indicator selectors has at least one match on the page. -/
def detectCaptcha (page : PageState) : Bool :=
  captchaIndicators.any (fun sel => decide (0 < selCount page sel))

/-- `FillResult`: the per-pass fill bookkeeping `{filled, failed, skipped}`
(entries are `(field, type)`, `(field, error)` and `(field, reason)`
pairs). -/
structure FillResult where
  filled : List (String × String)
  failed : List (String × String)
  skipped : List (String × String)
deriving Repr, DecidableEq

/-- The field loop of `FormLogic.fillForm`: each detected field with a
resolved value is filled and recorded as `(field.name || field.selector,
field.type)`; a field with no matching data is recorded as skipped with
reason `No matching data`.  Field interactions are modelled as succeeding,
so the `failed` bucket is empty. -/
def fillFormResults (fields : List Field) (formData : List (String × String)) : FillResult :=
  { filled := (fields.filter (fun f => (getValueForField f formData).isSome)).map
      (fun f => ((if f.name ≠ "" then f.name else f.selector), f.type)),
    failed := [],
    skipped := (fields.filter (fun f => (getValueForField f formData).isNone)).map
      (fun f => ((if f.name ≠ "" then f.name else f.selector), "No matching data")) }

/-- The observable steps of the generic branch, in execution order. -/
inductive JobEvent where
  | captchaCheck
  | formFill
  | formSubmit
  | verification
deriving Repr, DecidableEq

/-- The outcome of the generic branch: the steps that ran and either the
`(FillResult, verification)` pair of a completed run or the thrown error. -/
structure GenericOutcome where
  events : List JobEvent
  result : Except String (FillResult × VerifResult)
deriving Repr

/-- The generic branch of `FormFillingWorker.processJob`: when
`detectCaptcha` reports a CAPTCHA the body throws the distinct CAPTCHA
error at once; otherwise it fills the form, submits (throwing when the
submit selector has no match, as `submitForm`'s visibility wait does), and
verifies. -/
def processGenericPath (page : PageState) (fields : List Field)
    (formData : List (String × String)) (submitSelector : String)
    (si : SuccessIndicators) : GenericOutcome :=
  if detectCaptcha page then
    ⟨[.captchaCheck], .error "CAPTCHA detected - manual intervention required"⟩
  else if selCount page submitSelector = 0 then
    ⟨[.captchaCheck, .formFill, .formSubmit],
      .error ("submit selector not found: " ++ submitSelector)⟩
  else
    ⟨[.captchaCheck, .formFill, .formSubmit, .verification],
      .ok (fillFormResults fields formData, verifySubmission page si)⟩

/-- C6: a page with at least one element matching a CAPTCHA indicator
selector (such as `.g-recaptcha`) makes the generic branch throw the
distinct CAPTCHA error right after the CAPTCHA check — before any
field-fill or submit step — so no `FillResult` is ever produced for the
job. -/
theorem processGenericPath_captcha_short_circuit (page : PageState) (fields : List Field)
    (formData : List (String × String)) (submitSelector : String) (si : SuccessIndicators)
    (h : ∃ sel ∈ captchaIndicators, 0 < selCount page sel) :
    (processGenericPath page fields formData submitSelector si).result
        = .error "CAPTCHA detected - manual intervention required" ∧
    (processGenericPath page fields formData submitSelector si).events
        = [JobEvent.captchaCheck] ∧
    JobEvent.formFill ∉ (processGenericPath page fields formData submitSelector si).events ∧
    ∀ fr vr, (processGenericPath page fields formData submitSelector si).result
        ≠ Except.ok (fr, vr) := by
  have hc : detectCaptcha page = true := by
    rcases h with ⟨sel, hmem, hcount⟩
    simp only [detectCaptcha, List.any_eq_true]
    exact ⟨sel, hmem, by simpa using hcount⟩
  refine ⟨?_, ?_, ?_, ?_⟩ <;> simp [processGenericPath, hc]

/-- Witness for C6 at a concrete input: a page containing an element
matching `.g-recaptcha` throws the CAPTCHA error with only the CAPTCHA
check on the event trace. -/
theorem processGenericPath_captcha_short_circuit_witness :
    (processGenericPath ⟨"http://x/form", "", [".g-recaptcha"]⟩ [] [] "#submit"
        ⟨none, none, none⟩).result
        = .error "CAPTCHA detected - manual intervention required" ∧
    (processGenericPath ⟨"http://x/form", "", [".g-recaptcha"]⟩ [] [] "#submit"
        ⟨none, none, none⟩).events = [JobEvent.captchaCheck] := by
  have h := processGenericPath_captcha_short_circuit
    ⟨"http://x/form", "", [".g-recaptcha"]⟩ [] [] "#submit" ⟨none, none, none⟩
    ⟨".g-recaptcha", by decide, by decide⟩
  exact ⟨h.1, h.2.1⟩

end Autofill
